import Mathlib

/-!
Verification development for the HackSynced synthesis pipeline.

The definitions below are a shallow embedding of the backend synthesis core:
`SynthesisService` (pair resolution, the four external worker stages with
their fallback handling, result persistence), the synthesis controller
(`runSynthesis` cache check, `findPairsForSynthesis`), the response service
(`saveBothGeminiResponses`), and the mongoose `SynthesisResult` schema
validation (verdict enumeration, confidence range, required string fields).

Modelling conventions:
- MongoDB ObjectIds are `Nat`; where JavaScript compares an id to a string
  token, we compare against `Nat.repr`.  A malformed id string in the source
  raises a CastError that every call site catches and treats as "not found",
  so lookup-by-string returning `none` is observationally equivalent.
- Numbers are `Rat` (the scores are exact decimals in the source).
- Each external worker process is an oracle: a function from the stage input
  to a `WorkerOutcome` (exit code plus optionally-parseable stdout, spawn
  error, stdin write error, or timeout).  The stage wrappers interpret the
  outcome exactly as the `close`/`error` handlers and the timeout callback do.
- Wall-clock metrics (`Date.now()` deltas) and the citation-extraction regex
  are not representable in a pure embedding and are elided; no claim
  mentions them.
-/

/-- JavaScript `a || b` on an optional string: `undefined` and `""` are falsy. -/
def jsOrStr (o : Option String) (d : String) : String :=
  match o with
  | some s => if s = "" then d else s
  | none => d

/-- JavaScript `a || b` on an optional number: `undefined` and `0` are falsy. -/
def jsOrRat (o : Option Rat) (d : Rat) : Rat :=
  match o with
  | some x => if x = 0 then d else x
  | none => d

/-- `str.split('_')` of JavaScript, on the character list. -/
def splitChar (c : Char) : List Char → List (List Char)
  | [] => [[]]
  | x :: xs =>
    let r := splitChar c xs
    if x = c then [] :: r
    else
      match r with
      | [] => [[x]]
      | g :: gs => (x :: g) :: gs

/-- `String.split('_')` (JavaScript semantics, e.g. `"" ↦ [""]`). -/
def strSplitUnderscore (s : String) : List String :=
  (splitChar '_' s.data).map String.mk

/-- Structural `startsWith` on character lists. -/
def startsWithList : List Char → List Char → Bool
  | [], _ => true
  | _, [] => false
  | x :: xs, y :: ys => x = y && startsWithList xs ys

/-- `s.startsWith(p)` of JavaScript. -/
def strStartsWith (s p : String) : Bool :=
  startsWithList p.data s.data

/-- `s.includes('_')` of JavaScript. -/
def strContainsUnderscore (s : String) : Bool :=
  s.data.any (fun c => c = '_')

/-- An `AgentResponse` document, restricted to the fields the synthesis core
reads (`geminiResponse.reasoning` is flattened to `reasoning`). -/
structure Response where
  rid : Nat
  sessionId : String
  evidenceId : String
  agentType : String
  reasoning : String
  subject : String
  citations : List Nat
  synthesisStatus : String
  synthesisPairId : Option Nat
  createdAt : Nat
  deriving DecidableEq, Repr

/-- One stored evidence chunk (`evidenceChunks` entries of the Evidence doc). -/
structure EvidenceChunk where
  chunkId : Nat
  text : String
  relevanceScore : Rat
  deriving DecidableEq, Repr

/-- The response/evidence collections visible to the synthesis service. -/
structure Db where
  responses : List Response
  evidence : List (String × List EvidenceChunk)
  deriving DecidableEq, Repr

/-- `AgentResponse.findById` with a string id (CastError on a malformed id is
caught at every call site, so it behaves as "not found"). -/
def findByIdStr (db : Db) (s : String) : Option Response :=
  db.responses.find? (fun r => Nat.repr r.rid == s)

/-- `AgentResponse.findById` with an ObjectId already in hand. -/
def findByIdNat (db : Db) (n : Nat) : Option Response :=
  db.responses.find? (fun r => r.rid == n)

/-- Insert into a list kept sorted descending by `key` (stable). -/
def insertDescBy {α : Type} (key : α → Nat) (a : α) : List α → List α
  | [] => [a]
  | x :: xs => if key x ≥ key a then x :: insertDescBy key a xs else a :: x :: xs

/-- Sort descending by `key` (models Mongo `sort({field: -1})`). -/
def sortByDesc {α : Type} (key : α → Nat) : List α → List α
  | [] => []
  | x :: xs => insertDescBy key x (sortByDesc key xs)

/-- First occurrences of each key, in first-appearance order. -/
def firstKeys {α : Type} (keyOf : α → String) : List α → List String
  | [] => []
  | x :: xs => keyOf x :: (firstKeys keyOf xs).filter (fun k => k ≠ keyOf x)

/-- Grouping as done by the JavaScript `bySession` object (and Mongo `$group`):
keys in first-appearance order, each group holding the matching elements in
encounter order. -/
def groupByKey {α : Type} (keyOf : α → String) (l : List α) :
    List (String × List α) :=
  (firstKeys keyOf l).map (fun k => (k, l.filter (fun x => keyOf x = k)))

/-- The scan of strategy 2: the 10 most recently created responses. -/
def recentScan (db : Db) : List Response :=
  (sortByDesc (fun r => r.createdAt) db.responses).take 10

/-- Strategy 2's walk over the session groups: the first group holding a
response of each agent type yields (first support found, first oppose found). -/
def findPairInGroups : List (String × List Response) → Option (Response × Response)
  | [] => none
  | (_, g) :: gs =>
    match g.find? (fun r => r.agentType == "support"),
          g.find? (fun r => r.agentType == "oppose") with
    | some s, some o => some (s, o)
    | _, _ => findPairInGroups gs

/-- Strategy 1 (split form): token `supportId_opposeId`, not legacy-prefixed;
fetch both ids; succeeds only when both documents exist.  The source never
checks the agent types here. -/
def strat1 (db : Db) (tok : String) : Option (Response × Response) :=
  if strContainsUnderscore tok && !strStartsWith tok ("pair_") then
    match strSplitUnderscore tok with
    | [supportId, opposeId] =>
      match findByIdStr db supportId, findByIdStr db opposeId with
      | some s, some o => some (s, o)
      | _, _ => none
    | _ => none
  else none

/-- Strategy 2 (legacy form): token starts with the reserved `pair_` marker;
scan the most recent responses, group by session, take the first session with
a response of each agent type. -/
def strat2 (db : Db) (tok : String) : Option (Response × Response) :=
  if strStartsWith tok ("pair_") then
    findPairInGroups (groupByKey (fun r => r.sessionId) (recentScan db))
  else none

/-- Strategy 3 (cross-reference form): all responses whose `synthesisPairId`
equals the token; succeeds only with exactly two, one of each agent type. -/
def strat3 (db : Db) (tok : String) : Option (Response × Response) :=
  let matches3 := db.responses.filter (fun r =>
    match r.synthesisPairId with
    | some n => Nat.repr n == tok
    | none => false)
  if matches3.length = 2 then
    match matches3.find? (fun r => r.agentType == "support"),
          matches3.find? (fun r => r.agentType == "oppose") with
    | some s, some o => some (s, o)
    | _, _ => none
  else none

/-- Strategy 4 (single-id form): the token is one response id; follow its
stored counterpart reference and orient the pair by the main record's agent
type (the counterpart's own type is not checked). -/
def strat4 (db : Db) (tok : String) : Option (Response × Response) :=
  match findByIdStr db tok with
  | none => none
  | some main =>
    match main.synthesisPairId with
    | none => none
    | some pid =>
      match findByIdNat db pid with
      | none => none
      | some counterpart =>
        if main.agentType = "support" then some (main, counterpart)
        else some (counterpart, main)

/-- Whether the database layer throws inside each strategy's `try` block
(timeouts, cast errors, connection failures).  The source catches such an
error and falls through to the next strategy. -/
structure Faults where
  split : Bool
  legacy : Bool
  crossRef : Bool
  counterpart : Bool
  deriving DecidableEq, Repr

/-- A strategy whose `try` block throws contributes nothing. -/
def tryStrat (fault : Bool) (r : Option (Response × Response)) :
    Option (Response × Response) :=
  if fault then none else r

def noFaults : Faults := ⟨false, false, false, false⟩

/-- `_findPairedResponses`: the four strategies in fixed order, each one's
errors swallowed, with the pair-not-found error only after all four fail. -/
def findPairedResponses (db : Db) (fl : Faults) (tok : String) :
    Except String (Response × Response) :=
  match tryStrat fl.split (strat1 db tok) with
  | some p => .ok p
  | none =>
    match tryStrat fl.legacy (strat2 db tok) with
    | some p => .ok p
    | none =>
      match tryStrat fl.crossRef (strat3 db tok) with
      | some p => .ok p
      | none =>
        match tryStrat fl.counterpart (strat4 db tok) with
        | some p => .ok p
        | none => .error ("Could not find synthesis pair for: " ++ tok)

/-- What an external worker process did: it exited with a code and stdout that
either parses to a payload or does not, the spawn itself failed, the stdin
write threw, or the timeout fired first. -/
inductive WorkerOutcome (A : Type) where
  | exited (code : Nat) (parsed : Option A)
  | spawnError (msg : String)
  | writeError (msg : String)
  | timeout
  deriving DecidableEq, Repr

/-- Per-dimension quality scores of the Evidence Judge payload. -/
structure DimensionScores where
  factualGrounding : Rat
  logicalCoherence : Rat
  evidenceIntegration : Rat
  argumentStrength : Rat
  objectivity : Rat
  deriving DecidableEq, Repr

/-- `evidence_judgment` body of the Evidence Judge worker. -/
structure EvidenceJudgment where
  overallSupport : Rat
  overallOppose : Rat
  dimensionScores : DimensionScores
  winner : String
  confidence : Rat
  deriving DecidableEq, Repr

/-- Parsed stdout of the Evidence Judge worker. -/
structure JudgeOut where
  success : Bool
  evidenceJudgment : Option EvidenceJudgment
  errorMsg : Option String
  deriving DecidableEq, Repr

/-- `contradiction_analysis` body of the Contradiction Detector worker. -/
structure ContraAnalysis where
  contradictionScore : Rat
  similarityScore : Rat
  entailmentScore : Rat
  neutralScore : Rat
  strongContradictions : List String
  isContradictory : Bool
  fallbackUsed : Bool
  deriving DecidableEq, Repr

/-- Parsed stdout of the Contradiction Detector worker. -/
structure ContraOut where
  success : Bool
  contradictionAnalysis : Option ContraAnalysis
  errorMsg : Option String
  deriving DecidableEq, Repr

/-- Parsed stdout of the Grok explainer worker. -/
structure GrokOut where
  success : Bool
  explanation : Option String
  deriving DecidableEq, Repr

/-- Per-agent scores inside the synthesizer payload. -/
structure AgentScores where
  strength : Rat
  coverage : Rat
  consistency : Rat
  deriving DecidableEq, Repr

/-- The `scores` object of the synthesizer payload. -/
structure Scores where
  supportScores : AgentScores
  opposeScores : AgentScores
  evidenceQualityScore : Rat
  contradictionScore : Rat
  deriving DecidableEq, Repr

/-- One `key_evidence` entry of the synthesizer payload. -/
structure KeyEvidence where
  chunkId : String
  text : String
  weight : Rat
  usedBy : List String
  verdictImpact : Rat
  deriving DecidableEq, Repr

/-- The synthesizer worker's payload (also the shape of the in-code fallback).
Absent JSON fields are `none`. -/
structure MLResult where
  success : Bool
  errorMsg : Option String
  finalVerdict : Option String
  confidence : Option Rat
  reasoning : Option String
  scores : Option Scores
  keyEvidence : Option (List KeyEvidence)
  grokExplanation : Option String
  deriving DecidableEq, Repr

/-- `_getFallbackResult`: the fully degraded synthesis payload. -/
def getFallbackResult (error : String) : MLResult :=
  { success := false
    errorMsg := some error
    finalVerdict := some ("inconclusive")
    confidence := some (mkRat 1 2)
    reasoning := some ("ML synthesis encountered an issue: " ++ error ++
      ". Both arguments have merit but a definitive verdict cannot be determined at this time.")
    scores := some
      { supportScores := ⟨mkRat 1 2, mkRat 1 2, mkRat 1 2⟩
        opposeScores := ⟨mkRat 1 2, mkRat 1 2, mkRat 1 2⟩
        evidenceQualityScore := mkRat 1 2
        contradictionScore := mkRat 1 2 }
    keyEvidence := some []
    grokExplanation := none }

/-- `_runEvidenceJudge` outcome handling: exit 0 with parseable stdout yields
the parsed result; every other outcome yields `success: false` with the
corresponding error message (the stdout is never used). -/
def runEvidenceJudge (o : WorkerOutcome JudgeOut) : JudgeOut :=
  match o with
  | .exited 0 (some r) => r
  | .exited 0 none => ⟨false, none, some ("Parse error")⟩
  | .exited code _ => ⟨false, none, some ("Exit code " ++ Nat.repr code)⟩
  | .spawnError m => ⟨false, none, some m⟩
  | .writeError m => ⟨false, none, some m⟩
  | .timeout => ⟨false, none, some ("Timeout")⟩

/-- `_runContradictionDetector` outcome handling (same shape as the judge). -/
def runContradictionDetector (o : WorkerOutcome ContraOut) : ContraOut :=
  match o with
  | .exited 0 (some r) => r
  | .exited 0 none => ⟨false, none, some ("Parse error")⟩
  | .exited code _ => ⟨false, none, some ("Exit code " ++ Nat.repr code)⟩
  | .spawnError m => ⟨false, none, some m⟩
  | .writeError m => ⟨false, none, some m⟩
  | .timeout => ⟨false, none, some ("Timeout")⟩

/-- `_runMLSynthesisPipeline` outcome handling.  Exit 0 with parseable stdout
yields the parsed result; on a NON-ZERO exit the handler first tries to parse
stdout and, when that parse succeeds, resolves the parsed output; only
otherwise does it fall back to `_getFallbackResult`. -/
def runMLSynthesisPipeline (o : WorkerOutcome MLResult) : MLResult :=
  match o with
  | .exited code parsed =>
    if code = 0 then
      match parsed with
      | some r => r
      | none => getFallbackResult ("Parse error")
    else
      match parsed with
      | some r => r
      | none => getFallbackResult ("Python exit code " ++ Nat.repr code)
  | .spawnError m => getFallbackResult ("Process error: " ++ m)
  | .writeError m => getFallbackResult ("Failed to write to Python: " ++ m)
  | .timeout => getFallbackResult ("ML pipeline timeout (60s)")

/-- `_generateGrokExplanation` outcome handling: anything but exit 0 with
parseable stdout resolves `{success: false}`. -/
def runGrokExplanation (o : WorkerOutcome GrokOut) : GrokOut :=
  match o with
  | .exited 0 (some r) => r
  | _ => ⟨false, none⟩

/-- The synthesis-stage failure modes that reach `_getFallbackResult`:
unparseable stdout (any exit code), spawn error, stdin write error, timeout.
A non-zero exit with parseable stdout is NOT among them. -/
def synthStageFails (o : WorkerOutcome MLResult) : Prop :=
  match o with
  | .exited _ parsed => parsed = none
  | _ => True

/-- The failure cause string `_runMLSynthesisPipeline` hands to the fallback. -/
def synthFailureCause (o : WorkerOutcome MLResult) : String :=
  match o with
  | .exited code parsed =>
    if code = 0 then "Parse error"
    else
      match parsed with
      | some _ => "Parse error"
      | none => "Python exit code " ++ Nat.repr code
  | .spawnError m => "Process error: " ++ m
  | .writeError m => "Failed to write to Python: " ++ m
  | .timeout => "ML pipeline timeout (60s)"

/-- A worker-level failure as the spec enumerates them: non-zero exit,
unparseable stdout, spawn error, stdin write error, or timeout. -/
def workerFails {A : Type} (o : WorkerOutcome A) : Prop :=
  match o with
  | .exited code parsed => code ≠ 0 ∨ parsed = none
  | _ => True

/-- One evidence chunk as serialized into a worker request
(`{id: chunkId || index, text, relevance: relevanceScore || 0.5}`). -/
structure EvidenceChunkInput where
  id : Nat
  text : String
  relevance : Rat
  deriving DecidableEq, Repr

/-- The chunk serialization with its running index
(`{id: chunkId || index, ...}` maps a zero chunk id to the array index). -/
def serializeEvidenceFrom (i : Nat) : List EvidenceChunk → List EvidenceChunkInput
  | [] => []
  | c :: cs =>
    { id := if c.chunkId = 0 then i else c.chunkId
      text := c.text
      relevance := if c.relevanceScore = 0 then mkRat 1 2 else c.relevanceScore }
      :: serializeEvidenceFrom (i + 1) cs

/-- The chunk serialization used by both the judge input and the ML data. -/
def serializeEvidence (evidence : List EvidenceChunk) : List EvidenceChunkInput :=
  serializeEvidenceFrom 0 evidence

/-- Request body of the Evidence Judge worker. -/
structure JudgeInput where
  evidenceChunks : List EvidenceChunkInput
  useLightModel : Bool
  deriving DecidableEq, Repr

/-- Request body of the Contradiction Detector worker (texts truncated to 500
characters). -/
structure ContraInput where
  supportText : String
  opposeText : String
  useLightModel : Bool
  deriving DecidableEq, Repr

/-- One side of the ML pipeline data. -/
structure MLSide where
  reasoning : String
  citations : List Nat
  responseId : String
  subject : String
  deriving DecidableEq, Repr

/-- `_prepareMLPipelineData` output, after the judge/contradiction results (or
their fixed fallbacks) are injected. -/
structure MLData where
  synthesisPairId : String
  sessionId : String
  support : MLSide
  oppose : MLSide
  evidence : List EvidenceChunkInput
  evidenceJudgment : Option EvidenceJudgment
  contradictionAnalysis : Option ContraAnalysis
  deriving DecidableEq, Repr

/-- Request body of the Grok explainer worker (summaries truncated to 300
characters). -/
structure GrokInput where
  mlResult : MLResult
  supportSummary : String
  opposeSummary : String
  useFreeModel : Bool
  deriving DecidableEq, Repr

/-- `_prepareMLPipelineData` (before the analysis injection). -/
def prepareMLPipelineData (support oppose : Response)
    (evidence : List EvidenceChunk) : MLData :=
  { synthesisPairId :=
      match support.synthesisPairId with
      | some n => Nat.repr n
      | none => "unknown"
    sessionId := support.sessionId
    support :=
      { reasoning := support.reasoning
        citations := support.citations
        responseId := Nat.repr support.rid
        subject := support.subject }
    oppose :=
      { reasoning := oppose.reasoning
        citations := oppose.citations
        responseId := Nat.repr oppose.rid
        subject := oppose.subject }
    evidence := serializeEvidence evidence
    evidenceJudgment := none
    contradictionAnalysis := none }

/-- The fixed fallback judgment injected when the Evidence Judge fails. -/
def fallbackJudgment : EvidenceJudgment :=
  { overallSupport := mkRat 1 2
    overallOppose := mkRat 1 2
    dimensionScores := ⟨mkRat 1 2, mkRat 1 2, mkRat 1 2, mkRat 1 2, mkRat 1 2⟩
    winner := "neutral"
    confidence := mkRat 1 2 }

/-- The fixed fallback analysis injected when the Contradiction Detector
fails. -/
def fallbackContra : ContraAnalysis :=
  { contradictionScore := mkRat 3 10
    similarityScore := mkRat 1 2
    entailmentScore := mkRat 3 10
    neutralScore := mkRat 2 5
    strongContradictions := []
    isContradictory := false
    fallbackUsed := true }

/-- Step 3.7: inject the judge/contradiction results, with the fixed fallbacks
on stage failure. -/
def injectAnalyses (d : MLData) (j : JudgeOut) (c : ContraOut) : MLData :=
  { d with
    evidenceJudgment := if j.success then j.evidenceJudgment else some fallbackJudgment
    contradictionAnalysis :=
      if c.success then c.contradictionAnalysis else some fallbackContra }

/-- Step 4.5: the Grok explanation, when the stage succeeded, replaces the
reasoning text (and records itself); the verdict and confidence fields are
untouched. -/
def applyGrokExplanation (m : MLResult) (g : GrokOut) : MLResult :=
  if g.success then
    { m with grokExplanation := g.explanation, reasoning := g.explanation }
  else m

/-- A persisted `SynthesisResult` document, as `_saveSynthesisResult`
constructs it (wall-clock processing metrics elided). -/
structure SynthesisDoc where
  synthesisPairId : String
  sessionId : String
  evidenceId : String
  supportResponseId : Nat
  opposeResponseId : Nat
  verdict : String
  confidence : Rat
  reasoning : String
  mlScores : Option Scores
  keyEvidence : List KeyEvidence
  evidenceJudgeConfidence : Rat
  contradictionDetectorConfidence : Rat
  confidenceScorerConfidence : Rat
  status : String
  deriving DecidableEq, Repr

/-- The `SynthesisResult` collection. -/
abbrev SynthStore : Type := List SynthesisDoc

/-- The data `_saveSynthesisResult` receives. -/
structure SaveInput where
  synthesisPairId : String
  sessionId : String
  evidenceId : String
  supportResponseId : Nat
  opposeResponseId : Nat
  mlResult : MLResult
  deriving DecidableEq, Repr

/-- The document `_saveSynthesisResult` builds: `final_verdict || 'inconclusive'`,
`confidence || 0.5`, `reasoning || 'No reasoning provided'`, `scores || {}`,
`key_evidence || []`, model confidences with their `|| 0.5` defaults, and
always `status: 'completed'`. -/
def mkSynthesisDoc (input : SaveInput) : SynthesisDoc :=
  let m := input.mlResult
  { synthesisPairId := input.synthesisPairId
    sessionId := input.sessionId
    evidenceId := input.evidenceId
    supportResponseId := input.supportResponseId
    opposeResponseId := input.opposeResponseId
    verdict := jsOrStr m.finalVerdict ("inconclusive")
    confidence := jsOrRat m.confidence (mkRat 1 2)
    reasoning := jsOrStr m.reasoning ("No reasoning provided")
    mlScores := m.scores
    keyEvidence := m.keyEvidence.getD []
    evidenceJudgeConfidence :=
      jsOrRat ((m.scores).map (fun s => s.evidenceQualityScore)) (mkRat 1 2)
    contradictionDetectorConfidence :=
      jsOrRat ((m.scores).map (fun s => s.contradictionScore)) (mkRat 1 2)
    confidenceScorerConfidence := jsOrRat m.confidence (mkRat 1 2)
    status := "completed" }

/-- The `synthesisResultSchema` validation relevant to the stored verdict and
confidence, plus the `required: true` string paths (mongoose rejects an empty
required string). -/
def validDoc (d : SynthesisDoc) : Prop :=
  (d.verdict = "support" ∨ d.verdict = "oppose" ∨
    d.verdict = "inconclusive" ∨ d.verdict = "mixed") ∧
  0 ≤ d.confidence ∧ d.confidence ≤ 1 ∧
  d.synthesisPairId ≠ "" ∧ d.sessionId ≠ "" ∧ d.evidenceId ≠ "" ∧
  d.reasoning ≠ ""

instance (d : SynthesisDoc) : Decidable (validDoc d) := by
  unfold validDoc; infer_instance

/-- `_saveSynthesisResult` followed by `synthesisResult.save()`: the unique
index on `synthesisPairId` rejects a duplicate, schema validation rejects an
out-of-range document; either way the save throws and nothing is inserted.
Otherwise the built document (always `status: 'completed'`) is inserted. -/
def saveSynthesisResult (store : SynthStore) (input : SaveInput) :
    Except String (SynthesisDoc × SynthStore) :=
  let d := mkSynthesisDoc input
  if store.any (fun e => e.synthesisPairId == d.synthesisPairId) then
    .error ("duplicate key error: synthesisPairId")
  else if validDoc d then .ok (d, d :: store)
  else .error ("SynthesisResult validation failed")

/-- `Evidence.findOne({sessionId})?.evidenceChunks || []` (the catch branch
also returns `[]`). -/
def getEvidenceForSession (db : Db) (sessionId : String) : List EvidenceChunk :=
  match db.evidence.find? (fun e => e.1 == sessionId) with
  | some e => e.2
  | none => []

/-- Step 6: `updateMany` flipping both responses to `synthesisStatus:
'synthesized'`. -/
def markSynthesized (db : Db) (id1 id2 : Nat) : Db :=
  { db with
    responses := db.responses.map (fun r =>
      if r.rid = id1 ∨ r.rid = id2 then { r with synthesisStatus := "synthesized" }
      else r) }

/-- The behaviour of the four external worker processes, as oracles from the
request each stage serializes to that process's outcome. -/
structure WorkerEnv where
  judge : JudgeInput → WorkerOutcome JudgeOut
  contra : ContraInput → WorkerOutcome ContraOut
  synth : MLData → WorkerOutcome MLResult
  grok : GrokInput → WorkerOutcome GrokOut

/-- `s.substring(0, n)` of JavaScript. -/
def strTake (s : String) (n : Nat) : String :=
  String.mk (s.data.take n)

/-- The request `_runContradictionDetector` serializes (500-char truncation). -/
def mkContraInput (supportText opposeText : String) : ContraInput :=
  ⟨strTake supportText 500, strTake opposeText 500, true⟩

/-- The request `_generateGrokExplanation` serializes (300-char truncation). -/
def mkGrokInput (m : MLResult) (supportReasoning opposeReasoning : String) :
    GrokInput :=
  ⟨m, strTake supportReasoning 300, strTake opposeReasoning 300, true⟩

/-- The `SaveInput` `synthesizePair` hands to `_saveSynthesisResult`. -/
def buildSaveInput (tok : String) (support oppose : Response) (m : MLResult) :
    SaveInput :=
  { synthesisPairId := tok
    sessionId := support.sessionId
    evidenceId := support.evidenceId
    supportResponseId := support.rid
    opposeResponseId := oppose.rid
    mlResult := m }

/-- Steps 2–3.7 of `synthesizePair`: fetch the session's evidence, prepare
the ML data, run the judge and contradiction stages and inject their results
(or the fixed fallbacks). -/
def pipelineMLData (db : Db) (support oppose : Response) (w : WorkerEnv) :
    MLData :=
  let evidence := getEvidenceForSession db support.sessionId
  injectAnalyses (prepareMLPipelineData support oppose evidence)
    (runEvidenceJudge (w.judge ⟨serializeEvidence evidence, true⟩))
    (runContradictionDetector
      (w.contra (mkContraInput support.reasoning oppose.reasoning)))

/-- Steps 4–4.5 of `synthesizePair`: run the synthesis stage (which never
throws) and overlay the Grok explanation when that stage succeeded. -/
def pipelineMLResult (db : Db) (support oppose : Response) (w : WorkerEnv) :
    MLResult :=
  let m0 := runMLSynthesisPipeline (w.synth (pipelineMLData db support oppose w))
  applyGrokExplanation m0
    (runGrokExplanation
      (w.grok (mkGrokInput m0 support.reasoning oppose.reasoning)))

/-- `synthesizePair`: resolve the pair, run the stage pipeline, persist, and
mark both responses synthesized.  Only resolution failure and persistence
failure escape as errors. -/
def synthesizePair (db : Db) (store : SynthStore) (fl : Faults) (tok : String)
    (w : WorkerEnv) : Except String (SynthesisDoc × SynthStore × Db) :=
  match findPairedResponses db fl tok with
  | .error e => .error e
  | .ok (support, oppose) =>
    match saveSynthesisResult store
      (buildSaveInput tok support oppose (pipelineMLResult db support oppose w)) with
    | .error e => .error e
    | .ok (d, store2) => .ok (d, store2, markSynthesized db support.rid oppose.rid)

/-- What a successful `runSynthesis` API call reports, plus the states it
leaves behind and how many worker processes it spawned. -/
structure RunOk where
  result : SynthesisDoc
  cached : Bool
  workersInvoked : Nat
  db : Db
  store : SynthStore

/-- The controller's `runSynthesis`: reject an empty pair id, return the
existing result untouched on a store hit (zero workers), otherwise run the
pipeline (four worker processes, one per stage). -/
def runSynthesis (db : Db) (store : SynthStore) (fl : Faults) (tok : String)
    (w : WorkerEnv) : Except String RunOk :=
  if tok = "" then .error ("pairId parameter is required")
  else
    match store.find? (fun d => d.synthesisPairId == tok) with
    | some existing => .ok ⟨existing, true, 0, db, store⟩
    | none =>
      match synthesizePair db store fl tok w with
      | .error e => .error e
      | .ok (d, store2, db2) => .ok ⟨d, false, 4, db2, store2⟩

/-- `getSynthesisResult`: store lookup by pair token. -/
def getSynthesisResult (store : SynthStore) (tok : String) : Option SynthesisDoc :=
  store.find? (fun d => d.synthesisPairId == tok)

/-- The `AgentResponse` collection together with the ObjectId allocator. -/
structure RespState where
  nextId : Nat
  responses : List Response
  deriving DecidableEq, Repr

/-- `saveGeminiResponse`: a new document gets a fresh id, `synthesisStatus`
defaults to `'pending'` and `synthesisPairId` is unset (citation extraction
elided — no claim touches the `citations` content). -/
def saveGeminiResponse (st : RespState) (sessionId evidenceId agentType
    reasoning subject : String) (createdAt : Nat) : Response × RespState :=
  let r : Response :=
    { rid := st.nextId
      sessionId := sessionId
      evidenceId := evidenceId
      agentType := agentType
      reasoning := reasoning
      subject := subject
      citations := []
      synthesisStatus := "pending"
      synthesisPairId := none
      createdAt := createdAt }
  (r, { nextId := st.nextId + 1, responses := st.responses ++ [r] })

/-- Replace the documents with the given ids (the second `save()` after the
pairing fields were set). -/
def updateResponses (l : List Response) (s o : Response) : List Response :=
  l.map (fun r => if r.rid = s.rid then s else if r.rid = o.rid then o else r)

/-- `saveBothGeminiResponses`: save the support response, then the oppose
response, then cross-link them — the support document's `synthesisPairId`
becomes the oppose document's id and vice versa — and save both again. -/
def saveBothGeminiResponses (st : RespState) (sessionId evidenceId
    supportReasoning opposeReasoning subject : String) (createdAt : Nat) :
    (Response × Response) × RespState :=
  let sr := saveGeminiResponse st sessionId evidenceId ("support")
    supportReasoning subject createdAt
  let or2 := saveGeminiResponse sr.2 sessionId evidenceId ("oppose")
    opposeReasoning subject createdAt
  let s := { sr.1 with synthesisPairId := some or2.1.rid }
  let o := { or2.1 with synthesisPairId := some sr.1.rid }
  ((s, o), { or2.2 with responses := updateResponses or2.2.responses s o })

/-- One output group of the `findPairsForSynthesis` aggregation. -/
structure PairGroup where
  pairId : String
  members : List Response
  createdAt : Nat
  deriving DecidableEq, Repr

/-- Maximum of the members' `createdAt` (`$max: '$createdAt'`). -/
def maxCreatedAt (l : List Response) : Nat :=
  l.foldl (fun m r => max m r.createdAt) 0

/-- The pairing-key string a response is grouped under (`$group` by
`$synthesisPairId`). -/
def pairKeyOf (r : Response) : String :=
  match r.synthesisPairId with
  | some n => Nat.repr n
  | none => ""

/-- The `$match` stage: `synthesisPairId` exists and is non-null, and
`synthesisStatus: 'pending'`. -/
def pendingWithPairId (db : Db) : List Response :=
  db.responses.filter (fun r =>
    r.synthesisPairId.isSome && r.synthesisStatus == "pending")

/-- The controller's `findPairsForSynthesis` aggregation: match pending
responses carrying a pairing key, group them by that key, keep only groups of
size exactly 2, sort by newest member first, limit. -/
def findPairsForSynthesis (db : Db) (limit : Nat) : List PairGroup :=
  let grouped := groupByKey pairKeyOf (pendingWithPairId db)
  let pairs := (grouped.filter (fun g => g.2.length = 2)).map
    (fun g => { pairId := g.1, members := g.2, createdAt := maxCreatedAt g.2 })
  (sortByDesc (fun g => g.createdAt) pairs).take limit

/-! ### Concrete fixtures for the closed witnesses and counterexamples -/

def rSup : Response :=
  ⟨1, "s1", "e1", "support", "The support reasoning", "subj", [], "pending",
    some 2, 10⟩

def rOpp : Response :=
  ⟨2, "s1", "e1", "oppose", "The oppose reasoning", "subj", [], "pending",
    some 1, 11⟩

def demoDb : Db := ⟨[rSup, rOpp], [("s1", [⟨1, "chunk one", mkRat 7 10⟩])]⟩

/-- All four worker processes time out. -/
def failingWorkers : WorkerEnv :=
  ⟨fun _ => .timeout, fun _ => .timeout, fun _ => .timeout, fun _ => .timeout⟩

/-- A payload a broken synthesis worker printed just before exiting non-zero. -/
def cexPayload : MLResult :=
  { success := false
    errorMsg := some ("model load failed")
    finalVerdict := some ("support")
    confidence := some (mkRat 9 10)
    reasoning := some ("Printed by the failing worker")
    scores := none
    keyEvidence := some []
    grokExplanation := none }

/-- The worker environment of the C1 counterexample: judge, contradiction and
explanation workers time out, while the synthesis worker exits with code 1
after printing a parseable payload carrying its own verdict. -/
def cexWorkers : WorkerEnv :=
  ⟨fun _ => .timeout, fun _ => .timeout, fun _ => .exited 1 (some cexPayload),
    fun _ => .timeout⟩

/-- Two responses that are BOTH oppose-typed, cross-linked as a pair. -/
def rOppA : Response :=
  ⟨21, "s2", "e2", "oppose", "First oppose reasoning", "subj", [], "pending",
    some 22, 20⟩

def rOppB : Response :=
  ⟨22, "s2", "e2", "oppose", "Second oppose reasoning", "subj", [], "pending",
    some 21, 21⟩

def twoOpposeDb : Db := ⟨[rOppA, rOppB], []⟩

def rLegS1 : Response :=
  ⟨31, "sA", "eA", "support", "First support text", "subj", [], "pending",
    none, 30⟩

def rLegS2 : Response :=
  ⟨32, "sA", "eA", "support", "Second support text", "subj", [], "pending",
    none, 29⟩

def rLegO : Response :=
  ⟨33, "sA", "eA", "oppose", "Oppose text", "subj", [], "pending", none, 28⟩

def legacyDb : Db := ⟨[rLegS1, rLegS2, rLegO], []⟩

def r41 : Response :=
  ⟨41, "sB", "eB", "support", "Support text", "subj", [], "pending",
    some 100, 40⟩

def r42 : Response :=
  ⟨42, "sB", "eB", "oppose", "Oppose text", "subj", [], "pending",
    some 100, 41⟩

def r43 : Response :=
  ⟨43, "sB", "eB", "support", "Lone support text", "subj", [], "pending",
    some 200, 42⟩

def pendingDb : Db := ⟨[r41, r42, r43], []⟩

/-! ### General lemmas about the helper functions -/

theorem str_ne_empty_of_data_ne (s : String) (h : s.data ≠ []) : s ≠ "" := by
  intro hs
  apply h
  rw [hs]

theorem append_data_ne (s t : String) (h : s.data ≠ []) : (s ++ t).data ≠ [] := by
  rw [String.data_append]
  intro hh
  exact h (List.append_eq_nil.mp hh).1

theorem mem_insertDescBy {α : Type} (key : α → Nat) (a x : α) (l : List α) :
    x ∈ insertDescBy key a l ↔ x = a ∨ x ∈ l := by
  induction l with
  | nil => simp [insertDescBy]
  | cons y ys ih =>
    simp only [insertDescBy]
    split
    · simp only [List.mem_cons, ih]
      tauto
    · simp only [List.mem_cons]

theorem mem_sortByDesc {α : Type} (key : α → Nat) (x : α) (l : List α) :
    x ∈ sortByDesc key l ↔ x ∈ l := by
  induction l with
  | nil => simp [sortByDesc]
  | cons y ys ih =>
    simp only [sortByDesc, mem_insertDescBy, List.mem_cons, ih]

theorem groupByKey_members {α : Type} (keyOf : α → String) (l : List α)
    (g : String × List α) (hg : g ∈ groupByKey keyOf l) :
    g.2 = l.filter (fun x => keyOf x = g.1) := by
  unfold groupByKey at hg
  rw [List.mem_map] at hg
  obtain ⟨k, _, rfl⟩ := hg
  rfl

theorem find?_none_any_false {α : Type} (p : α → Bool) (l : List α)
    (h : l.find? p = none) : l.any p = false := by
  rw [List.any_eq_false]
  intro x hx
  simpa using List.find?_eq_none.mp h x hx

/-! ### Stage-level lemmas -/

theorem runMLSynthesisPipeline_fallback (o : WorkerOutcome MLResult)
    (h : synthStageFails o) :
    runMLSynthesisPipeline o = getFallbackResult (synthFailureCause o) := by
  cases o with
  | exited code parsed =>
    simp only [synthStageFails] at h
    subst h
    by_cases hc : code = 0 <;>
      simp [runMLSynthesisPipeline, synthFailureCause, hc]
  | spawnError m => rfl
  | writeError m => rfl
  | timeout => rfl

theorem runGrokExplanation_fails (o : WorkerOutcome GrokOut)
    (h : workerFails o) : runGrokExplanation o = ⟨false, none⟩ := by
  cases o with
  | exited code parsed =>
    cases parsed with
    | none => cases code <;> rfl
    | some r =>
      cases code with
      | zero => simp [workerFails] at h
      | succ n => rfl
  | spawnError m => rfl
  | writeError m => rfl
  | timeout => rfl

theorem runEvidenceJudge_fails (o : WorkerOutcome JudgeOut)
    (h : workerFails o) :
    (runEvidenceJudge o).success = false ∧
      (runEvidenceJudge o).evidenceJudgment = none := by
  cases o with
  | exited code parsed =>
    cases parsed with
    | none => cases code <;> exact ⟨rfl, rfl⟩
    | some r =>
      cases code with
      | zero => simp [workerFails] at h
      | succ n => exact ⟨rfl, rfl⟩
  | spawnError m => exact ⟨rfl, rfl⟩
  | writeError m => exact ⟨rfl, rfl⟩
  | timeout => exact ⟨rfl, rfl⟩

theorem runContradictionDetector_fails (o : WorkerOutcome ContraOut)
    (h : workerFails o) :
    (runContradictionDetector o).success = false ∧
      (runContradictionDetector o).contradictionAnalysis = none := by
  cases o with
  | exited code parsed =>
    cases parsed with
    | none => cases code <;> exact ⟨rfl, rfl⟩
    | some r =>
      cases code with
      | zero => simp [workerFails] at h
      | succ n => exact ⟨rfl, rfl⟩
  | spawnError m => exact ⟨rfl, rfl⟩
  | writeError m => exact ⟨rfl, rfl⟩
  | timeout => exact ⟨rfl, rfl⟩

theorem applyGrokExplanation_fail (m : MLResult) :
    applyGrokExplanation m ⟨false, none⟩ = m := by
  simp [applyGrokExplanation]

theorem pipelineMLResult_allFail (db : Db) (s o : Response) (w : WorkerEnv)
    (hs : ∀ i, synthStageFails (w.synth i)) (hg : ∀ i, workerFails (w.grok i)) :
    pipelineMLResult db s o w =
      getFallbackResult (synthFailureCause (w.synth (pipelineMLData db s o w))) := by
  simp only [pipelineMLResult]
  rw [runMLSynthesisPipeline_fallback _ (hs _), runGrokExplanation_fails _ (hg _),
    applyGrokExplanation_fail]

theorem getFallbackResult_reasoning_eq (e : String) :
    jsOrStr (getFallbackResult e).reasoning ("No reasoning provided") =
      "ML synthesis encountered an issue: " ++ e ++
      ". Both arguments have merit but a definitive verdict cannot be determined at this time." := by
  show jsOrStr (some _) _ = _
  simp only [jsOrStr]
  rw [if_neg]
  apply str_ne_empty_of_data_ne
  apply append_data_ne
  apply append_data_ne
  decide

/-- C5 counterexample: a synthesis worker that exits with code 2 while its
stdout still parses contributes its own output as the stage result — the
fixed fallback payload is NOT used, refuting "a worker that exits non-zero
never contributes its own output as the stage result". -/
theorem nonzeroExitUsesOwnOutput :
    runMLSynthesisPipeline (.exited 2 (some cexPayload)) = cexPayload ∧
    workerFails (WorkerOutcome.exited 2 (some cexPayload)) ∧
    runMLSynthesisPipeline (.exited 2 (some cexPayload)) ≠
      getFallbackResult (synthFailureCause (.exited 2 (some cexPayload))) := by
  refine ⟨rfl, Or.inl (by decide), by decide⟩

/-- C5 (amended): exit 0 with parseable stdout yields the parsed result for
every stage; for the judge, contradiction and explanation workers every other
outcome yields a failure replaced by the stage's fixed fallback; for the
synthesis stage the same holds for unparseable stdout, spawn errors, write
errors and timeouts — but ANY exit with parseable stdout, including a
non-zero one, yields the parsed output. -/
theorem workerOutcomeClassification :
    (∀ r : JudgeOut, runEvidenceJudge (.exited 0 (some r)) = r) ∧
    (∀ o : WorkerOutcome JudgeOut, workerFails o →
      (runEvidenceJudge o).success = false ∧
      (runEvidenceJudge o).evidenceJudgment = none) ∧
    (∀ r : ContraOut, runContradictionDetector (.exited 0 (some r)) = r) ∧
    (∀ o : WorkerOutcome ContraOut, workerFails o →
      (runContradictionDetector o).success = false ∧
      (runContradictionDetector o).contradictionAnalysis = none) ∧
    (∀ r : GrokOut, runGrokExplanation (.exited 0 (some r)) = r) ∧
    (∀ o : WorkerOutcome GrokOut, workerFails o →
      runGrokExplanation o = ⟨false, none⟩) ∧
    (∀ (d : MLData) (j : JudgeOut) (c : ContraOut), j.success = false →
      (injectAnalyses d j c).evidenceJudgment = some fallbackJudgment) ∧
    (∀ (d : MLData) (j : JudgeOut) (c : ContraOut), c.success = false →
      (injectAnalyses d j c).contradictionAnalysis = some fallbackContra) ∧
    (∀ r : MLResult, runMLSynthesisPipeline (.exited 0 (some r)) = r) ∧
    (∀ o : WorkerOutcome MLResult, synthStageFails o →
      runMLSynthesisPipeline o = getFallbackResult (synthFailureCause o)) ∧
    (∀ (code : Nat) (r : MLResult),
      runMLSynthesisPipeline (.exited code (some r)) = r) := by
  refine ⟨fun r => rfl, fun o h => runEvidenceJudge_fails o h, fun r => rfl,
    fun o h => runContradictionDetector_fails o h, fun r => rfl,
    fun o h => runGrokExplanation_fails o h, ?_, ?_, fun r => rfl,
    fun o h => runMLSynthesisPipeline_fallback o h, ?_⟩
  · intro d j c h
    simp [injectAnalyses, h]
  · intro d j c h
    simp [injectAnalyses, h]
  · intro code r
    by_cases hc : code = 0 <;> simp [runMLSynthesisPipeline, hc]

/-- C5 witness: a timed-out judge is a failure, and an exit-0 parseable
synthesis run returns its payload. -/
theorem workerOutcomeClassificationWitness :
    (runEvidenceJudge .timeout).success = false ∧
    runMLSynthesisPipeline (.exited 0 (some cexPayload)) = cexPayload :=
  ⟨(workerOutcomeClassification.2.1 .timeout trivial).1,
    workerOutcomeClassification.2.2.2.2.2.2.2.2.1 cexPayload⟩

/-- C6: the Grok explanation overlay never changes the verdict or confidence;
on stage success the explanation text replaces the reasoning field; on stage
failure the whole synthesis result is kept unchanged. -/
theorem explanationOverlayFrame (m : MLResult) (g : GrokOut) :
    (applyGrokExplanation m g).finalVerdict = m.finalVerdict ∧
    (applyGrokExplanation m g).confidence = m.confidence ∧
    (g.success = true → (applyGrokExplanation m g).reasoning = g.explanation) ∧
    (g.success = false → applyGrokExplanation m g = m) := by
  unfold applyGrokExplanation
  by_cases h : g.success = true <;> simp [h]

/-- C6 witness at a concrete synthesis result and explainer outputs. -/
theorem explanationOverlayFrameWitness :
    (applyGrokExplanation cexPayload ⟨true, some ("Overlay text")⟩).reasoning =
      some ("Overlay text") ∧
    applyGrokExplanation cexPayload ⟨false, none⟩ = cexPayload :=
  ⟨(explanationOverlayFrame cexPayload ⟨true, some ("Overlay text")⟩).2.2.1 rfl,
    (explanationOverlayFrame cexPayload ⟨false, none⟩).2.2.2 rfl⟩

/-- C10: `saveBothGeminiResponses` cross-links the pair — each member's
`synthesisPairId` is the OTHER member's id — so the two members carry two
different pairing-key values and never share one. -/
theorem saveBothCrossLinks (st : RespState) (sid eid srs ors subj : String)
    (t : Nat) :
    ((saveBothGeminiResponses st sid eid srs ors subj t).1.1).synthesisPairId =
      some ((saveBothGeminiResponses st sid eid srs ors subj t).1.2).rid ∧
    ((saveBothGeminiResponses st sid eid srs ors subj t).1.2).synthesisPairId =
      some ((saveBothGeminiResponses st sid eid srs ors subj t).1.1).rid ∧
    ((saveBothGeminiResponses st sid eid srs ors subj t).1.1).rid ≠
      ((saveBothGeminiResponses st sid eid srs ors subj t).1.2).rid ∧
    ((saveBothGeminiResponses st sid eid srs ors subj t).1.1).synthesisPairId ≠
      ((saveBothGeminiResponses st sid eid srs ors subj t).1.2).synthesisPairId := by
  refine ⟨rfl, rfl, ?_, ?_⟩
  · show st.nextId ≠ st.nextId + 1
    omega
  · show some (st.nextId + 1) ≠ some st.nextId
    intro h
    have h2 := Option.some.inj h
    omega

/-! ### Persistence lemmas -/

theorem saveSynthesisResult_ok (store : SynthStore) (input : SaveInput)
    (d : SynthesisDoc) (store2 : SynthStore)
    (h : saveSynthesisResult store input = .ok (d, store2)) :
    d = mkSynthesisDoc input ∧ store2 = d :: store ∧ validDoc d ∧
    d.status = "completed" := by
  simp only [saveSynthesisResult] at h
  split at h
  · cases h
  · split at h
    next hval =>
      simp only [Except.ok.injEq, Prod.mk.injEq] at h
      obtain ⟨h1, h2⟩ := h
      subst h1
      subst h2
      exact ⟨rfl, rfl, hval, rfl⟩
    next => cases h

theorem saveSynthesisResult_succeeds (store : SynthStore) (input : SaveInput)
    (hdup : store.any
      (fun e => e.synthesisPairId == (mkSynthesisDoc input).synthesisPairId) = false)
    (hval : validDoc (mkSynthesisDoc input)) :
    saveSynthesisResult store input =
      .ok (mkSynthesisDoc input, mkSynthesisDoc input :: store) := by
  simp only [saveSynthesisResult]
  rw [hdup]
  simp [hval]

/-- Full inversion of a successful `runSynthesis` call: it was either a cache
hit returning the stored result untouched with zero workers, or a fresh
pipeline run that resolved a pair, persisted the built document at the head of
the store, and spawned the four stage workers. -/
theorem runSynthesis_ok_inv (db : Db) (store : SynthStore) (fl : Faults)
    (tok : String) (w : WorkerEnv) (out : RunOk)
    (h : runSynthesis db store fl tok w = .ok out) :
    (store.find? (fun d => d.synthesisPairId == tok) = some out.result ∧
      out.store = store ∧ out.db = db ∧ out.cached = true ∧
      out.workersInvoked = 0) ∨
    (store.find? (fun d => d.synthesisPairId == tok) = none ∧
      ∃ s o, findPairedResponses db fl tok = .ok (s, o) ∧
        out.result =
          mkSynthesisDoc (buildSaveInput tok s o (pipelineMLResult db s o w)) ∧
        out.store = out.result :: store ∧ validDoc out.result ∧
        out.result.status = "completed" ∧
        out.result.synthesisPairId = tok ∧
        out.db = markSynthesized db s.rid o.rid ∧ out.cached = false ∧
        out.workersInvoked = 4) := by
  unfold runSynthesis at h
  split at h
  · cases h
  · cases hfind : store.find? (fun d => d.synthesisPairId == tok) with
    | some existing =>
      simp only [hfind] at h
      left
      injection h with h2
      subst h2
      exact ⟨rfl, rfl, rfl, rfl, rfl⟩
    | none =>
      simp only [hfind] at h
      right
      refine ⟨rfl, ?_⟩
      cases hsp : synthesizePair db store fl tok w with
      | error e => rw [hsp] at h; cases h
      | ok trip =>
        obtain ⟨d, store2, db2⟩ := trip
        rw [hsp] at h
        injection h with h2
        subst h2
        simp only [synthesizePair] at hsp
        cases hres : findPairedResponses db fl tok with
        | error e => rw [hres] at hsp; cases hsp
        | ok pr =>
          obtain ⟨s, o⟩ := pr
          simp only [hres] at hsp
          cases hsave : saveSynthesisResult store
              (buildSaveInput tok s o (pipelineMLResult db s o w)) with
          | error e => rw [hsave] at hsp; cases hsp
          | ok dp =>
            obtain ⟨d2, st3⟩ := dp
            simp only [hsave, Except.ok.injEq, Prod.mk.injEq] at hsp
            obtain ⟨hd, hst, hdb⟩ := hsp
            obtain ⟨h1, h2, hval, hstatus⟩ :=
              saveSynthesisResult_ok store _ d2 st3 hsave
            subst hd
            subst hst
            subst hdb
            subst h1
            refine ⟨s, o, rfl, rfl, by rw [h2], hval, hstatus, rfl, rfl, rfl, rfl⟩

/-- C9: every persisted synthesis result is written with status `'completed'`
(never `'failed'`, never left at the schema default `'processing'`); a
persistence failure propagates as an error out of `synthesizePair`, storing
nothing. -/
theorem statusAlwaysCompleted :
    (∀ (store : SynthStore) (input : SaveInput) (d : SynthesisDoc)
      (store2 : SynthStore), saveSynthesisResult store input = .ok (d, store2) →
      d.status = "completed" ∧ store2 = d :: store) ∧
    (∀ store : SynthStore, (∀ x ∈ store, x.status = "completed") →
      ∀ (db : Db) (fl : Faults) (tok : String) (w : WorkerEnv) (out : RunOk),
      runSynthesis db store fl tok w = .ok out →
      ∀ x ∈ out.store, x.status = "completed") ∧
    (∀ (db : Db) (store : SynthStore) (fl : Faults) (tok : String)
      (w : WorkerEnv) (s o : Response) (e : String),
      findPairedResponses db fl tok = .ok (s, o) →
      saveSynthesisResult store
        (buildSaveInput tok s o (pipelineMLResult db s o w)) = .error e →
      synthesizePair db store fl tok w = .error e) := by
  refine ⟨?_, ?_, ?_⟩
  · intro store input d store2 h
    obtain ⟨_, h2, _, h4⟩ := saveSynthesisResult_ok store input d store2 h
    exact ⟨h4, h2⟩
  · intro store hstore db fl tok w out h
    rcases runSynthesis_ok_inv db store fl tok w out h with
      ⟨_, hst, _⟩ | ⟨_, s, o, _, _, hst, _, hstatus, _⟩
    · rw [hst]
      exact hstore
    · rw [hst]
      intro x hx
      rcases List.mem_cons.mp hx with hx1 | hx2
      · rw [hx1]
        exact hstatus
      · exact hstore x hx2
  · intro db store fl tok w s o e hres hsave
    simp only [synthesizePair, hres, hsave]

/-- C9 witness: a duplicate-key persistence failure on the demo pair
propagates out of `synthesizePair`. -/
theorem statusAlwaysCompletedWitness :
    synthesizePair demoDb
      [mkSynthesisDoc (buildSaveInput "1_2" rSup rOpp
        (pipelineMLResult demoDb rSup rOpp failingWorkers))]
      noFaults "1_2" failingWorkers =
      .error ("duplicate key error: synthesisPairId") :=
  statusAlwaysCompleted.2.2 demoDb _ noFaults "1_2" failingWorkers rSup rOpp _
    (by rfl) (by rfl)

/-- C3: the schema validation at the store boundary guarantees that every
document ever inserted — hence every document ever read back — has a verdict
in the enumerated set and a confidence in [0, 1], fallback-built results
included. -/
theorem storedResultsValid (store : SynthStore)
    (hstore : ∀ x ∈ store, validDoc x) (db : Db) (fl : Faults) (tok : String)
    (w : WorkerEnv) (out : RunOk)
    (h : runSynthesis db store fl tok w = .ok out) :
    (∀ x ∈ out.store, validDoc x) ∧
    (∀ (tok2 : String) (d : SynthesisDoc),
      getSynthesisResult out.store tok2 = some d →
      (d.verdict = "support" ∨ d.verdict = "oppose" ∨
        d.verdict = "inconclusive" ∨ d.verdict = "mixed") ∧
      0 ≤ d.confidence ∧ d.confidence ≤ 1) := by
  have hall : ∀ x ∈ out.store, validDoc x := by
    rcases runSynthesis_ok_inv db store fl tok w out h with
      ⟨_, hst, _⟩ | ⟨_, s, o, _, _, hst, hval, _⟩
    · rw [hst]
      exact hstore
    · rw [hst]
      intro x hx
      rcases List.mem_cons.mp hx with hx1 | hx2
      · rw [hx1]
        exact hval
      · exact hstore x hx2
  refine ⟨hall, ?_⟩
  intro tok2 d hd
  have hmem : d ∈ out.store := List.mem_of_find?_eq_some hd
  obtain ⟨hv, hc1, hc2, _⟩ := hall d hmem
  exact ⟨hv, hc1, hc2⟩

/-- C3 witness: after a fully degraded run from the empty store, every
readable result still has an enumerated verdict and bounded confidence. -/
theorem storedResultsValidWitness :
    ∃ out, runSynthesis demoDb [] noFaults "1_2" failingWorkers = .ok out ∧
      ∀ (tok2 : String) (d : SynthesisDoc),
        getSynthesisResult out.store tok2 = some d →
        (d.verdict = "support" ∨ d.verdict = "oppose" ∨
          d.verdict = "inconclusive" ∨ d.verdict = "mixed") ∧
        0 ≤ d.confidence ∧ d.confidence ≤ 1 := by
  refine ⟨⟨mkSynthesisDoc (buildSaveInput "1_2" rSup rOpp
    (pipelineMLResult demoDb rSup rOpp failingWorkers)), false, 4,
    markSynthesized demoDb 1 2,
    [mkSynthesisDoc (buildSaveInput "1_2" rSup rOpp
      (pipelineMLResult demoDb rSup rOpp failingWorkers))]⟩, ?_, ?_⟩
  · rfl
  · exact (storedResultsValid [] (by simp) demoDb noFaults "1_2" failingWorkers
      _ (by rfl)).2

/-- C2: after any successful `runSynthesis` call, a second call on the same
token — under arbitrary database faults and worker behaviour — is a cache
hit: it returns the identical stored result content, invokes zero worker
processes, and leaves both the store and the response collection untouched. -/
theorem runSynthesisIdempotent (db : Db) (store : SynthStore) (fl : Faults)
    (tok : String) (w : WorkerEnv) (out : RunOk) (fl2 : Faults) (w2 : WorkerEnv)
    (h : runSynthesis db store fl tok w = .ok out) :
    ∃ out2, runSynthesis out.db out.store fl2 tok w2 = .ok out2 ∧
      out2.result = out.result ∧ out2.workersInvoked = 0 ∧
      out2.cached = true ∧ out2.store = out.store ∧ out2.db = out.db := by
  have htok : tok ≠ "" := by
    intro he
    subst he
    unfold runSynthesis at h
    simp at h
  refine ⟨⟨out.result, true, 0, out.db, out.store⟩, ?_, rfl, rfl, rfl, rfl, rfl⟩
  have hfind2 : out.store.find? (fun d => d.synthesisPairId == tok) =
      some out.result := by
    rcases runSynthesis_ok_inv db store fl tok w out h with
      ⟨hfind, hst, _⟩ | ⟨_, s, o, _, _, hst, _, _, hpid, _⟩
    · rw [hst]
      exact hfind
    · rw [hst]
      rw [List.find?_cons_of_pos]
      simp [hpid]
  unfold runSynthesis
  rw [if_neg htok, hfind2]

/-- C2 witness: a concrete first run from the empty store followed by a
cached second run. -/
theorem runSynthesisIdempotentWitness :
    ∃ out2, runSynthesis (markSynthesized demoDb 1 2)
      [mkSynthesisDoc (buildSaveInput "1_2" rSup rOpp
        (pipelineMLResult demoDb rSup rOpp failingWorkers))]
      noFaults "1_2" failingWorkers = .ok out2 ∧
      out2.result = mkSynthesisDoc (buildSaveInput "1_2" rSup rOpp
        (pipelineMLResult demoDb rSup rOpp failingWorkers)) ∧
      out2.workersInvoked = 0 := by
  obtain ⟨out2, h1, h2, h3, _⟩ :=
    runSynthesisIdempotent demoDb [] noFaults "1_2" failingWorkers
      ⟨mkSynthesisDoc (buildSaveInput "1_2" rSup rOpp
        (pipelineMLResult demoDb rSup rOpp failingWorkers)), false, 4,
        markSynthesized demoDb 1 2,
        [mkSynthesisDoc (buildSaveInput "1_2" rSup rOpp
          (pipelineMLResult demoDb rSup rOpp failingWorkers))]⟩
      noFaults failingWorkers (by rfl)
  exact ⟨out2, h1, h2, h3⟩

/-- C1 (amended): for every pair token that resolves and has no cached
result, if all four stages fail — where for the synthesis stage the failure
is one that reaches the in-code fallback (timeout, spawn error, stdin write
error, or unparseable stdout at ANY exit code; a non-zero exit with
parseable stdout instead adopts the worker's own output, see the
counterexample) — `runSynthesis` still returns a persisted result with
status `'completed'`, verdict `'inconclusive'`, confidence 0.5, per-agent
scores all 0.5, an empty key-evidence list and a reasoning string naming the
failure cause, raising no error from any stage failure. -/
theorem allWorkersFailStillCompletes (db : Db) (store : SynthStore)
    (fl : Faults) (tok : String) (w : WorkerEnv) (s o : Response)
    (hres : findPairedResponses db fl tok = .ok (s, o))
    (htok : tok ≠ "")
    (hcache : store.find? (fun d => d.synthesisPairId == tok) = none)
    (hsid : s.sessionId ≠ "") (heid : s.evidenceId ≠ "")
    (_hj : ∀ i, workerFails (w.judge i))
    (_hc : ∀ i, workerFails (w.contra i))
    (hs : ∀ i, synthStageFails (w.synth i))
    (hg : ∀ i, workerFails (w.grok i)) :
    ∃ out, runSynthesis db store fl tok w = .ok out ∧
      out.result.status = "completed" ∧
      out.result.verdict = "inconclusive" ∧
      out.result.confidence = 1/2 ∧
      out.result.mlScores = some ⟨⟨mkRat 1 2, mkRat 1 2, mkRat 1 2⟩,
        ⟨mkRat 1 2, mkRat 1 2, mkRat 1 2⟩, mkRat 1 2, mkRat 1 2⟩ ∧
      out.result.keyEvidence = [] ∧
      (∃ cause, out.result.reasoning =
        "ML synthesis encountered an issue: " ++ cause ++
        ". Both arguments have merit but a definitive verdict cannot be determined at this time.") ∧
      out.result ∈ out.store := by
  have hml := pipelineMLResult_allFail db s o w hs hg
  set cause := synthFailureCause (w.synth (pipelineMLData db s o w)) with hcausedef
  set input := buildSaveInput tok s o (getFallbackResult cause) with hinputdef
  have hpid : (mkSynthesisDoc input).synthesisPairId = tok := rfl
  have hdup : store.any
      (fun e => e.synthesisPairId == (mkSynthesisDoc input).synthesisPairId) =
      false := by
    rw [hpid]
    exact find?_none_any_false _ _ hcache
  have hconf : (mkSynthesisDoc input).confidence = mkRat 1 2 := rfl
  have hreas : (mkSynthesisDoc input).reasoning =
      "ML synthesis encountered an issue: " ++ cause ++
      ". Both arguments have merit but a definitive verdict cannot be determined at this time." :=
    getFallbackResult_reasoning_eq cause
  have hval : validDoc (mkSynthesisDoc input) := by
    refine ⟨Or.inr (Or.inr (Or.inl rfl)), ?_, ?_, ?_, hsid, heid, ?_⟩
    · rw [hconf]
      norm_num [mkRat, Rat.normalize]
    · rw [hconf]
      norm_num [mkRat, Rat.normalize]
    · rw [hpid]
      exact htok
    · rw [hreas]
      apply str_ne_empty_of_data_ne
      apply append_data_ne
      apply append_data_ne
      decide
  have hsave := saveSynthesisResult_succeeds store input hdup hval
  refine ⟨⟨mkSynthesisDoc input, false, 4, markSynthesized db s.rid o.rid,
    mkSynthesisDoc input :: store⟩, ?_, rfl, rfl, ?_, rfl, rfl,
    ⟨cause, hreas⟩, List.mem_cons_self _ _⟩
  · unfold runSynthesis
    rw [if_neg htok]
    simp only [hcache]
    simp only [synthesizePair, hres, hml, ← hinputdef, hsave]
  · show (mkSynthesisDoc input).confidence = 1/2
    rw [hconf]
    norm_num [mkRat, Rat.normalize]

/-- C1 witness: the demo pair with all four workers timing out. -/
theorem allWorkersFailStillCompletesWitness :
    ∃ out, runSynthesis demoDb [] noFaults "1_2" failingWorkers = .ok out ∧
      out.result.status = "completed" ∧
      out.result.verdict = "inconclusive" ∧
      out.result.confidence = 1/2 := by
  obtain ⟨out, h1, h2, h3, h4, _⟩ :=
    allWorkersFailStillCompletes demoDb [] noFaults "1_2" failingWorkers
      rSup rOpp (by rfl) (by decide) rfl (by decide) (by decide)
      (fun i => trivial) (fun i => trivial) (fun i => trivial)
      (fun i => trivial)
  exact ⟨out, h1, h2, h3, h4⟩

/-- C1 counterexample: all four stages fail in the claim's enumerated sense
(timeout, timeout, non-zero exit, timeout), yet the persisted verdict is the
crashed worker's own `'support'` with confidence 0.9 — not `'inconclusive'`
with confidence 0.5 — because a non-zero exit with parseable stdout adopts
the worker's output. -/
theorem allWorkersFailCounterexample :
    workerFails (cexWorkers.judge ⟨serializeEvidence
      (getEvidenceForSession demoDb "s1"), true⟩) ∧
    workerFails (cexWorkers.contra
      (mkContraInput rSup.reasoning rOpp.reasoning)) ∧
    workerFails (cexWorkers.synth
      (pipelineMLData demoDb rSup rOpp cexWorkers)) ∧
    workerFails (cexWorkers.grok (mkGrokInput cexPayload rSup.reasoning
      rOpp.reasoning)) ∧
    runSynthesis demoDb [] noFaults "1_2" cexWorkers =
      .ok ⟨mkSynthesisDoc (buildSaveInput "1_2" rSup rOpp
          (pipelineMLResult demoDb rSup rOpp cexWorkers)), false, 4,
        markSynthesized demoDb 1 2,
        [mkSynthesisDoc (buildSaveInput "1_2" rSup rOpp
          (pipelineMLResult demoDb rSup rOpp cexWorkers))]⟩ ∧
    (mkSynthesisDoc (buildSaveInput "1_2" rSup rOpp
      (pipelineMLResult demoDb rSup rOpp cexWorkers))).verdict = "support" ∧
    (mkSynthesisDoc (buildSaveInput "1_2" rSup rOpp
      (pipelineMLResult demoDb rSup rOpp cexWorkers))).verdict ≠
      "inconclusive" ∧
    (mkSynthesisDoc (buildSaveInput "1_2" rSup rOpp
      (pipelineMLResult demoDb rSup rOpp cexWorkers))).confidence =
      mkRat 9 10 := by
  refine ⟨trivial, trivial, Or.inl (by decide), trivial, by rfl, by rfl,
    by decide, by rfl⟩

/-- C4 (amended): the resolver tries its four strategies in fixed priority
order, a strategy whose database calls throw contributes nothing and the next
strategy is attempted, and the pair-not-found error occurs exactly when all
four strategies produced nothing.  A succeeding strategy returns a pair bound
to the (support, oppose) slots — but the split-form and single-id strategies
do not check the members' actual agent types (see the counterexample). -/
theorem resolverStrategyOrder (db : Db) (fl : Faults) (tok : String) :
    ((∃ e, findPairedResponses db fl tok = .error e) ↔
      tryStrat fl.split (strat1 db tok) = none ∧
      tryStrat fl.legacy (strat2 db tok) = none ∧
      tryStrat fl.crossRef (strat3 db tok) = none ∧
      tryStrat fl.counterpart (strat4 db tok) = none) ∧
    (∀ p, tryStrat fl.split (strat1 db tok) = some p →
      findPairedResponses db fl tok = .ok p) ∧
    (∀ p, tryStrat fl.split (strat1 db tok) = none →
      tryStrat fl.legacy (strat2 db tok) = some p →
      findPairedResponses db fl tok = .ok p) ∧
    (∀ p, tryStrat fl.split (strat1 db tok) = none →
      tryStrat fl.legacy (strat2 db tok) = none →
      tryStrat fl.crossRef (strat3 db tok) = some p →
      findPairedResponses db fl tok = .ok p) ∧
    (∀ p, tryStrat fl.split (strat1 db tok) = none →
      tryStrat fl.legacy (strat2 db tok) = none →
      tryStrat fl.crossRef (strat3 db tok) = none →
      tryStrat fl.counterpart (strat4 db tok) = some p →
      findPairedResponses db fl tok = .ok p) := by
  refine ⟨⟨?_, ?_⟩, ?_, ?_, ?_, ?_⟩
  · rintro ⟨e, he⟩
    unfold findPairedResponses at he
    cases h1 : tryStrat fl.split (strat1 db tok) with
    | some p => rw [h1] at he; cases he
    | none =>
      rw [h1] at he
      cases h2 : tryStrat fl.legacy (strat2 db tok) with
      | some p => rw [h2] at he; cases he
      | none =>
        rw [h2] at he
        cases h3 : tryStrat fl.crossRef (strat3 db tok) with
        | some p => rw [h3] at he; cases he
        | none =>
          rw [h3] at he
          cases h4 : tryStrat fl.counterpart (strat4 db tok) with
          | some p => rw [h4] at he; cases he
          | none => exact ⟨rfl, rfl, rfl, rfl⟩
  · rintro ⟨h1, h2, h3, h4⟩
    refine ⟨"Could not find synthesis pair for: " ++ tok, ?_⟩
    simp only [findPairedResponses, h1, h2, h3, h4]
  · intro p h1
    simp only [findPairedResponses, h1]
  · intro p h1 h2
    simp only [findPairedResponses, h1, h2]
  · intro p h1 h2 h3
    simp only [findPairedResponses, h1, h2, h3]
  · intro p h1 h2 h3 h4
    simp only [findPairedResponses, h1, h2, h3, h4]

/-- C4 witness: the single-id token `"1"` falls through the first three
strategies and resolves via the counterpart-reference strategy. -/
theorem resolverStrategyOrderWitness :
    findPairedResponses demoDb noFaults "1" = .ok (rSup, rOpp) :=
  (resolverStrategyOrder demoDb noFaults "1").2.2.2.2
    (rSup, rOpp) (by rfl) (by rfl) (by rfl) (by rfl)

/-- C4 counterexample: the split-form strategy succeeds on token `"21_22"`
returning two responses that are both oppose-typed — the resolver does NOT
return one support response and one oppose response whenever a strategy
succeeds. -/
theorem resolverStrategyOrderCounterexample :
    findPairedResponses twoOpposeDb noFaults "21_22" = .ok (rOppA, rOppB) ∧
    rOppA.agentType = "oppose" ∧ rOppB.agentType = "oppose" ∧
    rOppA.agentType ≠ "support" := by
  refine ⟨by rfl, rfl, rfl, by decide⟩

/-! ### Legacy-strategy lemmas -/

theorem findPairInGroups_none_iff (gs : List (String × List Response)) :
    findPairInGroups gs = none ↔
      ∀ g ∈ gs, g.2.find? (fun r => r.agentType == "support") = none ∨
        g.2.find? (fun r => r.agentType == "oppose") = none := by
  induction gs with
  | nil => simp [findPairInGroups]
  | cons g0 gs ih =>
    obtain ⟨k, grp⟩ := g0
    simp only [findPairInGroups]
    cases h1 : grp.find? (fun r => r.agentType == "support") with
    | none =>
      show findPairInGroups gs = none ↔ _
      constructor
      · intro h g2 hg2
        cases hg2 with
        | head => exact Or.inl h1
        | tail _ hg3 => exact ih.mp h g2 hg3
      · intro h
        exact ih.mpr (fun g2 hg2 => h g2 (List.mem_cons_of_mem _ hg2))
    | some s =>
      cases h2 : grp.find? (fun r => r.agentType == "oppose") with
      | none =>
        show findPairInGroups gs = none ↔ _
        constructor
        · intro h g2 hg2
          cases hg2 with
          | head => exact Or.inr h2
          | tail _ hg3 => exact ih.mp h g2 hg3
        · intro h
          exact ih.mpr (fun g2 hg2 => h g2 (List.mem_cons_of_mem _ hg2))
      | some o =>
        show some (s, o) = none ↔ _
        constructor
        · intro h
          cases h
        · intro h
          rcases h (k, grp) (List.mem_cons_self _ _) with hc | hc
          · rw [h1] at hc
            cases hc
          · rw [h2] at hc
            cases hc

theorem findPairInGroups_some_split (gs : List (String × List Response))
    (s o : Response) (h : findPairInGroups gs = some (s, o)) :
    ∃ gs1 g gs2, gs = gs1 ++ g :: gs2 ∧
      (∀ g2 ∈ gs1, g2.2.find? (fun r => r.agentType == "support") = none ∨
        g2.2.find? (fun r => r.agentType == "oppose") = none) ∧
      g.2.find? (fun r => r.agentType == "support") = some s ∧
      g.2.find? (fun r => r.agentType == "oppose") = some o := by
  induction gs with
  | nil => cases h
  | cons g0 gs ih =>
    obtain ⟨k, grp⟩ := g0
    simp only [findPairInGroups] at h
    cases h1 : grp.find? (fun r => r.agentType == "support") with
    | none =>
      rw [h1] at h
      obtain ⟨gs1, g, gs2, hsplit, hfail, hs2, ho2⟩ := ih h
      refine ⟨(k, grp) :: gs1, g, gs2, by rw [hsplit]; rfl, ?_, hs2, ho2⟩
      intro g2 hg2
      cases hg2 with
      | head => exact Or.inl h1
      | tail _ hg3 => exact hfail g2 hg3
    | some s0 =>
      rw [h1] at h
      cases h2 : grp.find? (fun r => r.agentType == "oppose") with
      | none =>
        rw [h2] at h
        obtain ⟨gs1, g, gs2, hsplit, hfail, hs2, ho2⟩ := ih h
        refine ⟨(k, grp) :: gs1, g, gs2, by rw [hsplit]; rfl, ?_, hs2, ho2⟩
        intro g2 hg2
        cases hg2 with
        | head => exact Or.inr h2
        | tail _ hg3 => exact hfail g2 hg3
      | some o0 =>
        rw [h2] at h
        have h3 := Option.some.inj h
        obtain ⟨rfl, rfl⟩ : s0 = s ∧ o0 = o :=
          ⟨congrArg Prod.fst h3, congrArg Prod.snd h3⟩
        exact ⟨[], (k, grp), gs, rfl,
          fun g2 hg2 => absurd hg2 (List.not_mem_nil g2), h1, h2⟩

/-- C7 (amended): for a legacy-prefixed token the strategy scans the 10 most
recently created responses grouped by session and succeeds exactly when some
session group holds AT LEAST one response of each agent type — a session with
several responses of one type still satisfies it (see the counterexample).
The returned pair comes from the first such group, taking the first-listed
response of each type. -/
theorem legacyResolution (db : Db) (tok : String)
    (h : strStartsWith tok ("pair_") = true) :
    (∀ s o, strat2 db tok = some (s, o) →
      s.agentType = "support" ∧ o.agentType = "oppose" ∧
      s.sessionId = o.sessionId ∧ s ∈ recentScan db ∧ o ∈ recentScan db ∧
      ∃ gs1 g gs2,
        groupByKey (fun r => r.sessionId) (recentScan db) = gs1 ++ g :: gs2 ∧
        (∀ g2 ∈ gs1, g2.2.find? (fun r => r.agentType == "support") = none ∨
          g2.2.find? (fun r => r.agentType == "oppose") = none) ∧
        g.2.find? (fun r => r.agentType == "support") = some s ∧
        g.2.find? (fun r => r.agentType == "oppose") = some o) ∧
    ((strat2 db tok).isSome = true ↔
      ∃ g ∈ groupByKey (fun r => r.sessionId) (recentScan db),
        (∃ r ∈ g.2, r.agentType = "support") ∧
        (∃ r ∈ g.2, r.agentType = "oppose")) := by
  have e1 : strat2 db tok =
      findPairInGroups (groupByKey (fun r => r.sessionId) (recentScan db)) := by
    unfold strat2
    rw [if_pos h]
  constructor
  · intro s o hso
    rw [e1] at hso
    obtain ⟨gs1, g, gs2, hsplit, hfail, hs2, ho2⟩ :=
      findPairInGroups_some_split _ s o hso
    have hgmem : g ∈ groupByKey (fun r => r.sessionId) (recentScan db) := by
      rw [hsplit]
      exact List.mem_append_right gs1 (List.mem_cons_self g gs2)
    have hgm := groupByKey_members (fun r => r.sessionId) (recentScan db) g hgmem
    have hsmem0 := List.mem_of_find?_eq_some hs2
    have homem0 := List.mem_of_find?_eq_some ho2
    have hstype : s.agentType = "support" := by
      have := List.find?_some hs2
      exact eq_of_beq this
    have hotype : o.agentType = "oppose" := by
      have := List.find?_some ho2
      exact eq_of_beq this
    rw [hgm] at hsmem0 homem0
    have hs3 := List.mem_filter.mp hsmem0
    have ho3 := List.mem_filter.mp homem0
    have hssid : s.sessionId = g.1 := of_decide_eq_true hs3.2
    have hosid : o.sessionId = g.1 := of_decide_eq_true ho3.2
    exact ⟨hstype, hotype, by rw [hssid, hosid], hs3.1, ho3.1,
      gs1, g, gs2, hsplit, hfail, hs2, ho2⟩
  · rw [e1]
    constructor
    · intro hsome
      cases hn : findPairInGroups
          (groupByKey (fun r => r.sessionId) (recentScan db)) with
      | none => rw [hn] at hsome; cases hsome
      | some p =>
        obtain ⟨s, o⟩ := p
        obtain ⟨gs1, g, gs2, hsplit, _, hs2, ho2⟩ :=
          findPairInGroups_some_split _ s o hn
        have hps := List.find?_some hs2
        have hpo := List.find?_some ho2
        refine ⟨g, ?_, ⟨s, List.mem_of_find?_eq_some hs2, eq_of_beq hps⟩,
          ⟨o, List.mem_of_find?_eq_some ho2, eq_of_beq hpo⟩⟩
        rw [hsplit]
        exact List.mem_append_right gs1 (List.mem_cons_self g gs2)
    · rintro ⟨g, hg, ⟨rs, hrs, hrs2⟩, ⟨ro, hro, hro2⟩⟩
      rw [Option.isSome_iff_ne_none]
      intro hn
      rcases (findPairInGroups_none_iff _).mp hn g hg with hno | hno
      · have : (g.2.find? (fun r => r.agentType == "support")).isSome = true :=
          List.find?_isSome.mpr ⟨rs, hrs, by simp [hrs2]⟩
        rw [hno] at this
        cases this
      · have : (g.2.find? (fun r => r.agentType == "oppose")).isSome = true :=
          List.find?_isSome.mpr ⟨ro, hro, by simp [hro2]⟩
        rw [hno] at this
        cases this

/-- C7 counterexample: the scanned session holds TWO support responses and
one oppose response — not exactly one of each — yet the legacy strategy
succeeds on it, refuting "a session containing more than one response of
some agent type does not satisfy the strategy". -/
theorem legacyResolutionCounterexample :
    strat2 legacyDb "pair_1700000000_abc" = some (rLegS1, rLegO) ∧
    rLegS1.agentType = "support" ∧ rLegS2.agentType = "support" ∧
    rLegS1.sessionId = rLegS2.sessionId ∧ rLegS1 ≠ rLegS2 ∧
    rLegS2 ∈ recentScan legacyDb ∧
    findPairedResponses legacyDb noFaults "pair_1700000000_abc" =
      .ok (rLegS1, rLegO) := by
  exact ⟨by rfl, rfl, rfl, rfl, by decide, by decide, by rfl⟩

/-- C7 witness: the pair the legacy strategy returns is support/oppose typed
and session-matched. -/
theorem legacyResolutionWitness :
    rLegS1.agentType = "support" ∧ rLegO.agentType = "oppose" ∧
    rLegS1.sessionId = rLegO.sessionId := by
  obtain ⟨h1, h2, h3, _⟩ :=
    (legacyResolution legacyDb "pair_1700000000_abc" (by rfl)).1 rLegS1 rLegO
      (by rfl)
  exact ⟨h1, h2, h3⟩

/-- C8: every group `findPairsForSynthesis` returns has exactly 2 members,
both pending with the group's pairing key; a pairing-key value whose count
among pending keyed responses is 1 or 3-or-more never appears in the output. -/
theorem findPendingPairsExactPairs (db : Db) (limit : Nat) :
    (∀ g ∈ findPairsForSynthesis db limit,
      g.members.length = 2 ∧
      (∀ r ∈ g.members, r.synthesisStatus = "pending" ∧
        r.synthesisPairId.isSome = true ∧ pairKeyOf r = g.pairId) ∧
      g.members =
        (pendingWithPairId db).filter (fun r => pairKeyOf r = g.pairId)) ∧
    (∀ k : String,
      ((pendingWithPairId db).filter (fun r => pairKeyOf r = k)).length ≠ 2 →
      ∀ g ∈ findPairsForSynthesis db limit, g.pairId ≠ k) := by
  have main : ∀ g ∈ findPairsForSynthesis db limit,
      g.members.length = 2 ∧
      (∀ r ∈ g.members, r.synthesisStatus = "pending" ∧
        r.synthesisPairId.isSome = true ∧ pairKeyOf r = g.pairId) ∧
      g.members =
        (pendingWithPairId db).filter (fun r => pairKeyOf r = g.pairId) := by
    intro g hg
    have hg2 : g ∈ sortByDesc (fun g => g.createdAt)
        (((groupByKey pairKeyOf (pendingWithPairId db)).filter
          (fun g => g.2.length = 2)).map
          (fun g => ⟨g.1, g.2, maxCreatedAt g.2⟩)) :=
      List.take_subset _ _ hg
    rw [mem_sortByDesc] at hg2
    rw [List.mem_map] at hg2
    obtain ⟨g0, hg0, rfl⟩ := hg2
    have hg1 := List.mem_filter.mp hg0
    have hlen : g0.2.length = 2 := of_decide_eq_true hg1.2
    have hmembers := groupByKey_members pairKeyOf (pendingWithPairId db) g0 hg1.1
    refine ⟨hlen, ?_, hmembers⟩
    intro r hr
    rw [hmembers] at hr
    have hr2 := List.mem_filter.mp hr
    have hrkey : pairKeyOf r = g0.1 := of_decide_eq_true hr2.2
    have hr3 := List.mem_filter.mp hr2.1
    have hr4 := (Bool.and_eq_true _ _).mp hr3.2
    exact ⟨eq_of_beq hr4.2, hr4.1, hrkey⟩
  refine ⟨main, ?_⟩
  intro k hk g hg hEq
  obtain ⟨hlen, _, hmembers⟩ := main g hg
  rw [hmembers, hEq] at hlen
  exact hk hlen

/-- C8 witness: on a store with one exact pending pair (key 100) and one
singleton (key 200), the returned group is the exact pair and the singleton
key is excluded. -/
theorem findPendingPairsExactPairsWitness :
    ((⟨"100", [r41, r42], 41⟩ : PairGroup).members.length = 2 ∧
      ∀ r ∈ (⟨"100", [r41, r42], 41⟩ : PairGroup).members,
        r.synthesisStatus = "pending") ∧
    ∀ g ∈ findPairsForSynthesis pendingDb 10, g.pairId ≠ "200" := by
  have h1 := (findPendingPairsExactPairs pendingDb 10).1
    ⟨"100", [r41, r42], 41⟩ (by decide)
  have h2 := (findPendingPairsExactPairs pendingDb 10).2 "200" (by decide)
  exact ⟨⟨h1.1, fun r hr => (h1.2.1 r hr).1⟩, h2⟩
